import Mathlib

/-!
Shallow embedding of the Kidilan Traveler admin dashboard client
(TypeScript/React) and proofs about the claims of its specification.

The embedding covers:
* the session store (`AppContext` / its fuller variant): token rehydration
  across `sessionStorage` and `localStorage`, login persistence, and the
  cached-user fallback when the profile fetch fails;
* the API client (`apiRequest` header construction, `getProducts` response
  normalisation, the mock website-content endpoints);
* the product list controller (`ProductTable.fetchAndSetProducts` and the
  mount effect), and the product form validation (`ProductModal.validate`).

JavaScript `getItem` results are modelled as `Option String` (`none` for
`null`); JavaScript truthiness of such a value (`!x`, `if (x)`, `x || y`)
is `jsTruthy`.  Numbers that matter to the claims are integers or rationals.
-/

namespace Kidilan

/-- JS truthiness of a `string | null` value: `null` and `""` are falsy. -/
def jsTruthy : Option String → Bool
  | none => false
  | some s => !(s == "")

/-- `a || b` on `string | null` values, as JS evaluates it. -/
def jsOr (a b : Option String) : Option String :=
  if jsTruthy a then a else b

theorem jsTruthy_some_iff (s : String) : jsTruthy (some s) = true ↔ s ≠ "" := by
  simp [jsTruthy]

theorem jsTruthy_none : jsTruthy none = false := rfl

/-! ### The `User` record (`types.ts`) -/

/-- `User` from `types.ts`: `{ name, email, role }`; the role is one of
`'Admin' | 'Editor'`, kept as a string. -/
structure User where
  name : String
  email : String
  role : String
  deriving Repr, DecidableEq

/-! ### `apiRequest` header construction (`mockApi.ts`)

`apiRequest` reads the token from `sessionStorage` first, falling back to
`localStorage` (via JS `||`), always sets `Content-Type`, and adds an
`Authorization: Bearer <token>` header only when the token is truthy. -/

/-- The token `apiRequest` selects:
`sessionStorage.getItem("authToken") || localStorage.getItem("authToken")`. -/
def selectToken (sess lcl : Option String) : Option String :=
  jsOr sess lcl

/-- The headers `apiRequest` sends, as an association list, given the two
storage tiers' `authToken` values. -/
def apiRequestHeaders (sess lcl : Option String) : List (String × String) :=
  let token := selectToken sess lcl
  let base := [("Content-Type", "application/json")]
  if jsTruthy token then
    base ++ [("Authorization", "Bearer " ++ token.getD "")]
  else
    base

/-- The `Authorization` header of an `apiRequest`, if any. -/
def authHeader (sess lcl : Option String) : Option String :=
  (apiRequestHeaders sess lcl).lookup "Authorization"

/-- Spec-side reading (amended claim C6): the header is `Bearer t` for the
first non-empty token among sessionStorage then localStorage, and absent
when neither tier holds a non-empty token. -/
def bearerSpec (sess lcl : Option String) : Option String :=
  match sess with
  | some t =>
      if t = "" then
        match lcl with
        | some u => if u = "" then none else some ("Bearer " ++ u)
        | none => none
      else some ("Bearer " ++ t)
  | none =>
      match lcl with
      | some u => if u = "" then none else some ("Bearer " ++ u)
      | none => none

/-! ### The session store

`part_002` (the full `AppContext` provider) holds
`token / user / isAuthenticated / isLoading` state, the two browser storage
tiers, and the toast queue.  `initialize` rehydrates the token, and on a
failed `getMe` falls back to the cached `authUser` blob. -/

/-- The session store state: React state plus the browser storage keys the
provider touches.  `sessionToken`/`localToken` are the `authToken` keys of
the two tiers; `localUser` is the serialized `authUser` blob in
`localStorage`. -/
structure SessionState where
  token : Option String
  user : Option User
  isAuthenticated : Bool
  isLoading : Bool
  sessionToken : Option String
  localToken : Option String
  localUser : Option String
  toasts : List String
  deriving Repr, DecidableEq

/-- The provider's initial state (`useState` initialisers) over given
browser-storage contents. -/
def initState (sess lcl lu : Option String) : SessionState :=
  { token := none
    user := none
    isAuthenticated := false
    isLoading := true
    sessionToken := sess
    localToken := lcl
    localUser := lu
    toasts := [] }

/-- The catch-branch of `initialize`'s `fetchUser` call: read the cached
`authUser` blob and, when it is present and parses, install it as the user
with an offline-mode toast; otherwise leave the state alone.  No branch
touches the token, the authenticated flag or the storage tiers. -/
def cachedUserFallback (parse : String → Option User) (s : SessionState) : SessionState :=
  match s.localUser with
  | some cached =>
      match parse cached with
      | some u =>
          { s with user := some u
                   toasts := s.toasts ++ ["Using cached profile (offline mode)."] }
      | none => s
  | none => s

/-- `initialize` from the session provider.  `getMe` is the result of the
profile fetch (`Except.error` = the request rejected); `parse` models
`JSON.parse` on the cached `authUser` string (`none` = parse threw);
`serialize` models `JSON.stringify`.

Steps, mirroring the source: read `authToken` from sessionStorage, fall back
to localStorage and copy a truthy localStorage token into sessionStorage;
when the stored token is truthy, set `token`/`isAuthenticated` and run
`fetchUser`; on `fetchUser` failure fall back to the cached user when it
parses; finally clear `isLoading`.  No failure path removes tokens or
resets the authenticated flag. -/
def initializeSession (getMe : Except Unit User) (parse : String → Option User)
    (serialize : User → String) (s : SessionState) : SessionState :=
  let s1 := { s with isLoading := true }
  -- let storedToken = sessionStorage.getItem('authToken');
  -- if (!storedToken) { storedToken = localStorage.getItem('authToken');
  --   if (storedToken) sessionStorage.setItem('authToken', storedToken); }
  let stored := if jsTruthy s1.sessionToken then s1.sessionToken else s1.localToken
  let s2 :=
    if jsTruthy s1.sessionToken then s1
    else if jsTruthy s1.localToken then { s1 with sessionToken := s1.localToken }
    else s1
  let s3 :=
    if jsTruthy stored then
      let sAuth := { s2 with token := stored, isAuthenticated := true }
      match getMe with
      | Except.ok u =>
          -- fetchUser success: set the user and cache it in localStorage
          { sAuth with user := some u, localUser := some (serialize u) }
      | Except.error _ =>
          -- fetchUser failed: fall back to the cached user if present
          cachedUserFallback parse sAuth
    else s2
  { s3 with isLoading := false }

/-- `login` from the session provider, after `apiLogin` resolved or rejected.
On success it persists the token to both tiers, caches the serialized user
under `authUser`, sets the React state and shows a welcome toast; a rejected
`apiLogin` propagates before any of that runs, leaving the state unchanged. -/
def login (serialize : User → String) (resp : Except Unit (User × String))
    (s : SessionState) : SessionState :=
  match resp with
  | Except.error _ => s
  | Except.ok (u, t) =>
      { s with sessionToken := some t
               localToken := some t
               localUser := some (serialize u)
               token := some t
               user := some u
               isAuthenticated := true
               toasts := s.toasts ++ ["Welcome back, " ++ u.name ++ "!"] }

/-- A trivial `JSON.parse` model used only by closed witness statements. -/
def parse0 : String → Option User := fun _ => none

/-- A trivial `JSON.stringify` model used only by closed witness statements. -/
def ser0 : User → String := fun _ => ""

/-- A `JSON.parse` model that always succeeds, for closed witness statements. -/
def parseW : String → Option User :=
  fun _ => some { name := "Admin User", email := "admin@example.com", role := "Admin" }

/-! ### `getProducts` response normalisation (`mockApi.ts`)

`getProducts` accepts either a bare array or `{ products, totalCount }`,
maps each raw product (`images`→`imageUrls` with `|| []`, `isFeatured ?? false`,
`sold ?? 0`, specifications filtered down to string/string pairs), and fixes
up `totalCount`. -/

/-- A primitive JS value, as far as `typeof`-style checks need. -/
inductive JPrim where
  | jstr (s : String)
  | jnum (n : Int)
  | jbool (b : Bool)
  | jnull
  | jarrv
  | jobjv
  deriving DecidableEq, Repr

/-- `typeof v === "string"`. -/
def JPrim.isString : JPrim → Bool
  | .jstr _ => true
  | _ => false

/-- A raw entry of a product's `specifications` array: its own JS
truthiness, and its `key`/`value` members. -/
structure RawSpec where
  truthy : Bool
  key : JPrim
  value : JPrim
  deriving DecidableEq, Repr

/-- The filter `getProducts` applies to raw specification entries:
`spec && typeof spec.key === "string" && typeof spec.value === "string"`. -/
def keepSpec (sp : RawSpec) : Bool :=
  sp.truthy && sp.key.isString && sp.value.isString

/-- A raw product as the server may send it: the typed fields plus the
optional/defaultable ones `getProducts` normalises (`none` = absent or
nullish; for `specifications`, `none` = not an array). -/
structure RawProduct where
  id : String
  name : String
  category : String
  price : ℚ
  stock : Int
  images : Option (List String)
  isFeatured : Option Bool
  sold : Option Int
  specifications : Option (List RawSpec)
  deriving DecidableEq, Repr

/-- A product after `getProducts`' normalising map. -/
structure MappedProduct where
  id : String
  name : String
  category : String
  price : ℚ
  stock : Int
  imageUrls : List String
  isFeatured : Bool
  sold : Int
  specifications : List RawSpec
  deriving DecidableEq, Repr

/-- The per-product mapping inside `getProducts`. -/
def mapRawProduct (p : RawProduct) : MappedProduct :=
  { id := p.id
    name := p.name
    category := p.category
    price := p.price
    stock := p.stock
    imageUrls := p.images.getD []        -- p.images || []
    isFeatured := p.isFeatured.getD false -- p.isFeatured ?? false
    sold := p.sold.getD 0                 -- p.sold ?? 0
    specifications :=
      match p.specifications with
      | some l => l.filter keepSpec
      | none => [] }

/-- The shapes of server response `getProducts` accepts: a bare array, or an
object with optional `products` and `totalCount` fields. -/
inductive ProductsPayload where
  | arr (ps : List RawProduct)
  | obj (products : Option (List RawProduct)) (totalCount : Option Int)
  deriving DecidableEq, Repr

/-- `Array.isArray(data) ? data : data.products || []`. -/
def rawProductsOf : ProductsPayload → List RawProduct
  | .arr ps => ps
  | .obj ps _ => ps.getD []

/-- `ProductsApiResponse` from `types.ts`. -/
structure ProductsApiResponse where
  products : List MappedProduct
  totalCount : Int
  deriving DecidableEq, Repr

/-- `getProducts` after the request resolved with payload `data`:
map the raw products, then take `totalCount` from the payload when it is a
number and the mapped list's length otherwise. -/
def getProducts (data : ProductsPayload) : ProductsApiResponse :=
  let mapped := (rawProductsOf data).map mapRawProduct
  let tc : Int :=
    match data with
    | .obj _ (some n) => n
    | _ => (mapped.length : Int)
  { products := mapped, totalCount := tc }

/-! ### The product list controller (`ProductTable.tsx`)

`fetchAndSetProducts` compares the current debounced search and sort config
against `prevFiltersRef`, fetches page 1 on a filter change (resetting
`currentPage`), merges category names into the fetched products, records
errors/toasts on failure, and always clears the loading flag. -/

/-- `'ascending' | 'descending'`. -/
inductive Dir where
  | ascending
  | descending
  deriving DecidableEq, BEq, Repr

/-- `Category` from `types.ts` (post-`getCategories` mapping). -/
structure Category where
  id : String
  name : String
  description : String
  imageUrl : String
  productCount : Int
  deriving DecidableEq, Repr

/-- The inputs `fetchAndSetProducts` closes over: the debounced search
string and the sort config (`key : keyof Product | null`). -/
structure FetchInput where
  search : String
  sortKey : Option String
  sortDir : Dir
  deriving DecidableEq, BEq, Repr

/-- One call to `getProducts`, with the parameters the controller passed. -/
structure FetchRequest where
  page : Nat
  limit : Nat
  search : String
  sortKey : Option String
  sortDir : Dir
  deriving DecidableEq, Repr

/-- The `ProductTable` component state the fetch logic touches, plus a log
of the `getProducts` requests it has issued. -/
structure CtrlState where
  products : List MappedProduct
  categories : List Category
  isLoading : Bool
  error : Option String
  totalProducts : Int
  currentPage : Nat
  prevFilters : FetchInput
  toasts : List String
  requests : List FetchRequest
  deriving DecidableEq, Repr

/-- `prevFiltersRef.current.search !== debouncedSearchQuery || ...key... || ...direction...`. -/
def filtersChangedB (prev cur : FetchInput) : Bool :=
  !(decide (prev.search = cur.search)) || !(decide (prev.sortKey = cur.sortKey))
    || !(decide (prev.sortDir = cur.sortDir))

/-- `categoryMap.get(p.category) || 'Uncategorized'`. -/
def categoryName (catMap : List (String × String)) (c : String) : String :=
  match catMap.lookup c with
  | some n => if n = "" then "Uncategorized" else n
  | none => "Uncategorized"

/-- `PRODUCTS_PER_PAGE`. -/
def PRODUCTS_PER_PAGE : Nat := 5

/-- `fetchAndSetProducts`, with the joint outcome of the
`Promise.all([getProducts …, getCategories()])` passed in (`Except.error` =
either request rejected).  Mirrors the source: compute `filtersChanged` and
`pageToFetch`, reset `currentPage` to 1 on a filter change, set loading,
clear the error, issue the request, store mapped products and the total on
success or record the error message and toast on failure, clear loading,
and record the filters used in `prevFiltersRef`. -/
def fetchAndSetProducts (cur : FetchInput)
    (outcome : Except Unit (ProductsApiResponse × List Category))
    (s : CtrlState) : CtrlState :=
  let filtersChanged := filtersChangedB s.prevFilters cur
  let pageToFetch := if filtersChanged then 1 else s.currentPage
  let s1 := if filtersChanged && !(decide (s.currentPage = 1))
            then { s with currentPage := 1 } else s
  let req : FetchRequest :=
    { page := pageToFetch, limit := PRODUCTS_PER_PAGE,
      search := cur.search, sortKey := cur.sortKey, sortDir := cur.sortDir }
  let s2 := { s1 with
    isLoading := true
    error := none
    requests := s1.requests ++ [req] }
  let s3 : CtrlState :=
    match outcome with
    | Except.ok (resp, cats) =>
        let catMap := cats.map (fun c => (c.id, c.name))
        { s2 with
          categories := cats
          products := resp.products.map
            (fun p => { p with category := categoryName catMap p.category })
          totalProducts := resp.totalCount }
    | Except.error _ =>
        { s2 with
          error := some "Failed to fetch products. Please try again later."
          toasts := s2.toasts ++ ["Failed to fetch products"] }
  { s3 with isLoading := false, prevFilters := cur }

/-! ### The fetch effect of `ProductTable` (lines 79–81)

```
useEffect(() => { fetchAndSetProducts(); }, []);
```

React semantics: an effect runs after the first render; after a later
render it re-runs iff its dependency array differs element-wise from the
previous render's.  The dependency array written in the source is the empty
array, so `fetchEffectDeps` is constantly `[]`. -/

/-- The dependency array of the fetch effect, as written in the source: `[]`. -/
def fetchEffectDeps : CtrlState → FetchInput → List Nat :=
  fun _ _ => []

/-- A mounted `ProductTable`: its state, the current (debounced search +
sort) inputs, and the fetch effect's dependency values at the last render. -/
structure MountedTable where
  st : CtrlState
  cur : FetchInput
  lastDeps : List Nat
  deriving DecidableEq, Repr

/-- Mounting the component: the first render always runs the fetch effect. -/
def mountProductTable (cur : FetchInput)
    (outcome : Except Unit (ProductsApiResponse × List Category))
    (st : CtrlState) : MountedTable :=
  { st := fetchAndSetProducts cur outcome st
    cur := cur
    lastDeps := fetchEffectDeps st cur }

/-- A re-render with state `st` and inputs `cur`: the fetch effect re-runs
iff its dependency array changed since the previous render. -/
def rerenderProductTable (cur : FetchInput)
    (outcome : Except Unit (ProductsApiResponse × List Category))
    (st : CtrlState) (m : MountedTable) : MountedTable :=
  let d := fetchEffectDeps st cur
  if d ≠ m.lastDeps then
    { st := fetchAndSetProducts cur outcome st, cur := cur, lastDeps := d }
  else
    { st := st, cur := cur, lastDeps := d }

/-- A state update observable by the list controller: a page change
(`Pagination`'s `onPageChange` → `setCurrentPage`), a sort change
(`handleSort` → `setSortConfig`), or a new debounced search value. -/
inductive TableEvent where
  | page (n : Nat)
  | sort (k : Option String) (d : Dir)
  | search (q : String)
  deriving DecidableEq, Repr

/-- Apply a state update and re-render the component. -/
def applyEvent (outcome : Except Unit (ProductsApiResponse × List Category))
    (e : TableEvent) (m : MountedTable) : MountedTable :=
  match e with
  | .page n => rerenderProductTable m.cur outcome { m.st with currentPage := n } m
  | .sort k d => rerenderProductTable { m.cur with sortKey := k, sortDir := d } outcome m.st m
  | .search q => rerenderProductTable { m.cur with search := q } outcome m.st m

/-- Apply a sequence of state updates. -/
def applyEvents (outcome : Except Unit (ProductsApiResponse × List Category))
    (evs : List TableEvent) (m : MountedTable) : MountedTable :=
  evs.foldl (fun m e => applyEvent outcome e m) m

/-- The component's initial state (`useState` initialisers of
`ProductTable`), with the initial filters recorded in `prevFiltersRef`. -/
def initialCtrlState : CtrlState :=
  { products := []
    categories := []
    isLoading := true
    error := none
    totalProducts := 0
    currentPage := 1
    prevFilters := { search := "", sortKey := some "_id", sortDir := .descending }
    toasts := []
    requests := [] }

/-- The initial fetch inputs: empty debounced search and the initial sort
config `{ key: '_id', direction: 'descending' }`. -/
def initialFetchInput : FetchInput :=
  { search := "", sortKey := some "_id", sortDir := .descending }

/-! ### The mock website-content endpoints (`mockApi.ts`)

`mockApiRequest` resolves (its `shouldFail` flag defaults to `false` and no
website-content caller sets it) with `JSON.parse(JSON.stringify(data))`, a
deep copy; `updateWebsiteContents` replaces the module-level store and both
endpoints resolve with a copy of it. -/

/-- `WebsiteContent` from `types.ts`. -/
structure WebsiteContent where
  key : String
  label : String
  value : String
  deriving DecidableEq, Repr

/-- The JSON round-trip deep copy `mockApiRequest` performs, on a list of
`WebsiteContent` records (field-by-field copy of plain string records). -/
def deepCopyContents (cs : List WebsiteContent) : List WebsiteContent :=
  cs.map (fun c => { key := c.key, label := c.label, value := c.value })

/-- `getWebsiteContents`: resolves with a deep copy of the store. -/
def getWebsiteContents (store : List WebsiteContent) : List WebsiteContent :=
  deepCopyContents store

/-- `updateWebsiteContents contents store = (new store, resolved value)`:
the store is replaced by `contents` and the promise resolves with a deep
copy of the (new) store. -/
def updateWebsiteContents (contents _store : List WebsiteContent) :
    List WebsiteContent × List WebsiteContent :=
  (contents, deepCopyContents contents)

/-! ### Product form validation (`ProductModal.tsx`)

`validate` builds an error record field by field; the form is valid iff no
error was recorded, and `handleSubmit` builds the product to save only when
`validate` passed.  `Number(...)` is modelled by a parameter
`num : String → Option ℚ` with `none` for `NaN`. -/

/-- A `{ key, value }` specification pair of the form state. -/
structure SpecKV where
  key : String
  value : String
  deriving DecidableEq, Repr

/-- The `ProductModal` form state fields `validate` reads (`price` and
`stock` are the raw input strings). -/
structure ProductFormData where
  name : String
  category : String
  price : String
  stock : String
  imageUrls : List String
  specifications : List SpecKV
  description : String
  subHeading : String
  deriving DecidableEq, Repr

/-- The `FormErrors` record: `some msg` = an error was recorded for the
field.  (`imageUrls` exists in the type but `validate` never sets it.) -/
structure FormErrors where
  name : Option String
  category : Option String
  price : Option String
  stock : Option String
  imageUrls : Option String
  specifications : Option String
  description : Option String
  subHeading : Option String
  deriving DecidableEq, Repr

/-- `validate` from `ProductModal.tsx`, field by field.  `num` models
JS `Number(·)` (`none` = `NaN`); `Number.isInteger` becomes a denominator-1
check on the rational value. -/
def validate (num : String → Option ℚ) (fd : ProductFormData) : FormErrors :=
  { name := if fd.name.trim = "" then some "Product name is required." else none
    category := if fd.category = "" then some "Category is required." else none
    price :=
      if fd.price = "" ∨ num fd.price = none ∨ (num fd.price).getD 0 < 0
      then some "Please enter a valid price." else none
    stock :=
      if fd.stock = "" ∨ num fd.stock = none
          ∨ ¬ ((num fd.stock).getD 0).den = 1 ∨ (num fd.stock).getD 0 < 0
      then some "Please enter a valid stock amount." else none
    imageUrls := none
    specifications :=
      if fd.specifications.length = 0
      then some "At least one specification is required." else none
    description :=
      if fd.description.trim = "" then some "Product description is required." else none
    subHeading :=
      if fd.subHeading.trim = "" then some "Product sub heading is required." else none }

/-- `Object.keys(newErrors).length === 0`: no field recorded an error. -/
def validateOk (num : String → Option ℚ) (fd : ProductFormData) : Bool :=
  let e := validate num fd
  e.name.isNone && e.category.isNone && e.price.isNone && e.stock.isNone
    && e.imageUrls.isNone && e.specifications.isNone && e.description.isNone
    && e.subHeading.isNone

/-- The product object `handleSubmit` passes to `onSave`. -/
structure SavedProduct where
  id : Option String
  name : String
  category : String
  price : ℚ
  stock : ℚ
  imageUrls : List String
  specifications : List SpecKV
  description : String
  subHeading : String
  deriving DecidableEq, Repr

/-- `handleSubmit`: runs `validate` and returns early (no save) when it
fails; otherwise builds the product (numbers via `Number(·)`) and saves it. -/
def handleSubmit (num : String → Option ℚ) (productId : Option String)
    (fd : ProductFormData) : Option SavedProduct :=
  if validateOk num fd then
    some { id := productId
           name := fd.name
           category := fd.category
           price := (num fd.price).getD 0
           stock := (num fd.stock).getD 0
           imageUrls := fd.imageUrls
           specifications := fd.specifications
           description := fd.description
           subHeading := fd.subHeading }
  else none

/-! ## Theorems -/

/-- Helper: the cached-user fallback never touches the token. -/
theorem cachedUserFallback_token (p : String → Option User) (s : SessionState) :
    (cachedUserFallback p s).token = s.token := by
  unfold cachedUserFallback
  cases h : s.localUser with
  | none => simp [h]
  | some c => cases hp : p c <;> simp [h, hp]

/-- Helper: the cached-user fallback never touches the authenticated flag. -/
theorem cachedUserFallback_isAuthenticated (p : String → Option User) (s : SessionState) :
    (cachedUserFallback p s).isAuthenticated = s.isAuthenticated := by
  unfold cachedUserFallback
  cases h : s.localUser with
  | none => simp [h]
  | some c => cases hp : p c <;> simp [h, hp]

/-- Helper: the cached-user fallback never touches sessionStorage. -/
theorem cachedUserFallback_sessionToken (p : String → Option User) (s : SessionState) :
    (cachedUserFallback p s).sessionToken = s.sessionToken := by
  unfold cachedUserFallback
  cases h : s.localUser with
  | none => simp [h]
  | some c => cases hp : p c <;> simp [h, hp]

/-- Helper: the cached-user fallback never touches the localStorage token. -/
theorem cachedUserFallback_localToken (p : String → Option User) (s : SessionState) :
    (cachedUserFallback p s).localToken = s.localToken := by
  unfold cachedUserFallback
  cases h : s.localUser with
  | none => simp [h]
  | some c => cases hp : p c <;> simp [h, hp]

/-- Helper: the cached-user fallback never touches the cached blob itself. -/
theorem cachedUserFallback_localUser (p : String → Option User) (s : SessionState) :
    (cachedUserFallback p s).localUser = s.localUser := by
  unfold cachedUserFallback
  cases h : s.localUser with
  | none => simp [h]
  | some c => cases hp : p c <;> simp [h, hp]

/-- Helper: starting from no user, the cached-user fallback ends with the
parse of the cached blob (when present), and no user otherwise. -/
theorem cachedUserFallback_user (p : String → Option User) (s : SessionState)
    (h : s.user = none) :
    (cachedUserFallback p s).user = s.localUser.bind p := by
  unfold cachedUserFallback
  cases s.localUser with
  | none => simpa using h
  | some c => cases hp : p c <;> simp [hp, h]

/-- Helper: `deepCopyContents` is the identity on our records. -/
theorem deepCopyContents_eq (cs : List WebsiteContent) : deepCopyContents cs = cs := by
  induction cs with
  | nil => rfl
  | cons c t ih =>
      simp only [deepCopyContents, List.map_cons] at ih ⊢
      exact congrArg (c :: ·) ih

/-- C8: after `updateWebsiteContents cs` resolves, `getWebsiteContents`
resolves to a list structurally equal to `cs`: the update replaces the store
with `cs`, and both operations resolve with a (deep-copied, hence
structurally equal) copy of the store. -/
theorem websiteContents_roundtrip (cs store : List WebsiteContent) :
    getWebsiteContents (updateWebsiteContents cs store).1 = cs ∧
    (updateWebsiteContents cs store).1 = cs ∧
    (updateWebsiteContents cs store).2 = cs := by
  refine ⟨?_, rfl, ?_⟩ <;>
    simp [getWebsiteContents, updateWebsiteContents, deepCopyContents_eq]

/-- C5: a successful `login` persists the token to both storage tiers,
caches the serialized user under `authUser`, and leaves the session with
that token, that user and `isAuthenticated = true`. -/
theorem login_persists_session (ser : User → String) (u : User) (t : String)
    (s : SessionState) :
    (login ser (Except.ok (u, t)) s).sessionToken = some t ∧
    (login ser (Except.ok (u, t)) s).localToken = some t ∧
    (login ser (Except.ok (u, t)) s).localUser = some (ser u) ∧
    (login ser (Except.ok (u, t)) s).token = some t ∧
    (login ser (Except.ok (u, t)) s).user = some u ∧
    (login ser (Except.ok (u, t)) s).isAuthenticated = true := by
  simp [login]

/-- C4 (counterexample): with `authToken` present in sessionStorage with the
empty-string value and nothing in localStorage, one storage tier holds a
token, yet after initialization the session is not authenticated — the code
treats a falsy (empty) stored token as absent. -/
theorem initializeSession_empty_token_not_authenticated :
    (initializeSession (Except.error ()) parse0 ser0
        (initState (some "") none none)).isAuthenticated = false := by
  decide

/-- C4 (amended): on rehydration the token is read from sessionStorage
first and only if that tier is absent-or-empty from localStorage; a
non-empty token found in localStorage (with sessionStorage absent-or-empty)
is copied into sessionStorage; and the session ends authenticated with the
selected token exactly when one of the tiers held a non-empty token
(otherwise `token` stays `null`). -/
theorem initializeSession_rehydration (sess lcl lu : Option String)
    (g : Except Unit User) (p : String → Option User) (ser : User → String) :
    ((initializeSession g p ser (initState sess lcl lu)).isAuthenticated
        = (jsTruthy sess || jsTruthy lcl)) ∧
    ((initializeSession g p ser (initState sess lcl lu)).token
        = (if jsTruthy sess then sess else if jsTruthy lcl then lcl else none)) ∧
    ((initializeSession g p ser (initState sess lcl lu)).sessionToken
        = (if jsTruthy sess then sess else if jsTruthy lcl then lcl else sess)) ∧
    ((initializeSession g p ser (initState sess lcl lu)).localToken = lcl) := by
  by_cases hs : jsTruthy sess = true <;> by_cases hl : jsTruthy lcl = true <;>
    cases g <;>
    simp [initializeSession, initState, hs, hl, cachedUserFallback_token,
      cachedUserFallback_isAuthenticated, cachedUserFallback_sessionToken,
      cachedUserFallback_localToken]

/-- C3: if a stored token is found (the code's own truthiness test) and the
profile fetch fails, the user is set from the cached `authUser` blob when it
is present and parses (and stays unset otherwise), and in every failure case
the session stays authenticated with the stored token: the authenticated
flag is set, the React token is the stored one, both storage tiers still
hold the token, and the cached blob is untouched — no logout happens. -/
theorem initializeSession_getMe_failure (sess lcl lu : Option String)
    (p : String → Option User) (ser : User → String)
    (hfound : jsTruthy (jsOr sess lcl) = true) :
    (initializeSession (Except.error ()) p ser (initState sess lcl lu)).user
        = lu.bind p ∧
    (initializeSession (Except.error ()) p ser (initState sess lcl lu)).isAuthenticated
        = true ∧
    (initializeSession (Except.error ()) p ser (initState sess lcl lu)).token
        = jsOr sess lcl ∧
    (initializeSession (Except.error ()) p ser (initState sess lcl lu)).sessionToken
        = jsOr sess lcl ∧
    (initializeSession (Except.error ()) p ser (initState sess lcl lu)).localToken
        = lcl ∧
    (initializeSession (Except.error ()) p ser (initState sess lcl lu)).localUser
        = lu := by
  have key : initializeSession (Except.error ()) p ser (initState sess lcl lu)
      = { cachedUserFallback p
            { token := jsOr sess lcl, user := none, isAuthenticated := true,
              isLoading := true, sessionToken := jsOr sess lcl,
              localToken := lcl, localUser := lu, toasts := [] }
          with isLoading := false } := by
    by_cases hs : jsTruthy sess = true
    · have h1 : jsOr sess lcl = sess := by simp [jsOr, hs]
      simp [initializeSession, initState, hs, h1]
    · have h1 : jsOr sess lcl = lcl := by simp [jsOr, hs]
      have hl : jsTruthy lcl = true := by rw [h1] at hfound; exact hfound
      simp [initializeSession, initState, hs, hl, h1]
  rw [key]
  refine ⟨?_, ?_, ?_, ?_, ?_, ?_⟩
  · exact cachedUserFallback_user p _ rfl
  · exact cachedUserFallback_isAuthenticated p _
  · exact cachedUserFallback_token p _
  · exact cachedUserFallback_sessionToken p _
  · exact cachedUserFallback_localToken p _
  · exact cachedUserFallback_localUser p _

/-- Witness for C3: a concrete stored token, failing profile fetch and
parsable cache, with the hypothesis discharged by evaluation. -/
theorem initializeSession_getMe_failure_witness :
    jsTruthy (jsOr (some "tok") none) = true ∧
    ((initializeSession (Except.error ()) parseW ser0
        (initState (some "tok") none (some "cached"))).user
      = (some "cached").bind parseW ∧
     (initializeSession (Except.error ()) parseW ser0
        (initState (some "tok") none (some "cached"))).isAuthenticated = true ∧
     (initializeSession (Except.error ()) parseW ser0
        (initState (some "tok") none (some "cached"))).token
      = jsOr (some "tok") none ∧
     (initializeSession (Except.error ()) parseW ser0
        (initState (some "tok") none (some "cached"))).sessionToken
      = jsOr (some "tok") none ∧
     (initializeSession (Except.error ()) parseW ser0
        (initState (some "tok") none (some "cached"))).localToken = none ∧
     (initializeSession (Except.error ()) parseW ser0
        (initState (some "tok") none (some "cached"))).localUser
      = some "cached") :=
  ⟨by decide,
   initializeSession_getMe_failure (some "tok") none (some "cached") parseW ser0
     (by decide)⟩

/-- C6 (counterexample): with the empty string stored under `authToken` in
sessionStorage (and nothing in localStorage), a token is stored, yet the
request carries no `Authorization` header — so it is not the claimed
`Bearer ` + token. -/
theorem apiRequest_empty_token_no_header :
    authHeader (some "") none = none ∧
    ¬ authHeader (some "") none = some ("Bearer " ++ "") := by
  decide

/-- C6 (amended): the `Authorization` header of `apiRequest` is
`Bearer t` where `t` is the sessionStorage token when that is non-empty and
otherwise the localStorage token when that is non-empty; when neither tier
holds a non-empty token (empty values count as absent) there is no
`Authorization` header. -/
theorem apiRequest_bearer_header (sess lcl : Option String) :
    authHeader sess lcl = bearerSpec sess lcl := by
  cases sess with
  | none =>
      cases lcl with
      | none => decide
      | some u =>
          by_cases hu : u = "" <;>
            simp [authHeader, apiRequestHeaders, selectToken, jsOr, jsTruthy,
              bearerSpec, hu, List.lookup]
  | some t =>
      by_cases ht : t = ""
      · cases lcl with
        | none => simp [authHeader, apiRequestHeaders, selectToken, jsOr,
            jsTruthy, bearerSpec, ht, List.lookup]
        | some u =>
            by_cases hu : u = "" <;>
              simp [authHeader, apiRequestHeaders, selectToken, jsOr, jsTruthy,
                bearerSpec, ht, hu, List.lookup]
      · simp [authHeader, apiRequestHeaders, selectToken, jsOr, jsTruthy,
          bearerSpec, ht, List.lookup]


/-- Helper: `filtersChangedB` is the complement of structural equality of
the filter inputs. -/
theorem filtersChangedB_iff (prev cur : FetchInput) :
    filtersChangedB prev cur = true ↔ ¬ cur = prev := by
  cases prev with
  | mk ps pk pd =>
      cases cur with
      | mk cs ck cd =>
          simp [filtersChangedB, FetchInput.mk.injEq]
          tauto

/-- Helper: the `false` form of `filtersChangedB_iff`. -/
theorem filtersChangedB_eq_false_iff (prev cur : FetchInput) :
    filtersChangedB prev cur = false ↔ cur = prev := by
  have h := filtersChangedB_iff prev cur
  cases hb : filtersChangedB prev cur <;> simp_all

/-- Helper: each invocation of `fetchAndSetProducts` appends exactly one
request, for page 1 on a filter change and the stored page otherwise. -/
theorem fetchAndSetProducts_requests (cur : FetchInput)
    (outcome : Except Unit (ProductsApiResponse × List Category))
    (s : CtrlState) :
    (fetchAndSetProducts cur outcome s).requests = s.requests ++
      [{ page := if filtersChangedB s.prevFilters cur then 1 else s.currentPage,
         limit := PRODUCTS_PER_PAGE, search := cur.search,
         sortKey := cur.sortKey, sortDir := cur.sortDir }] := by
  cases hfc : filtersChangedB s.prevFilters cur <;> cases outcome <;>
    by_cases hp : s.currentPage = 1 <;>
    simp [fetchAndSetProducts, hfc, hp]

/-- Helper: the stored current page after `fetchAndSetProducts`. -/
theorem fetchAndSetProducts_currentPage (cur : FetchInput)
    (outcome : Except Unit (ProductsApiResponse × List Category))
    (s : CtrlState) :
    (fetchAndSetProducts cur outcome s).currentPage
      = (if filtersChangedB s.prevFilters cur then 1 else s.currentPage) := by
  cases hfc : filtersChangedB s.prevFilters cur <;> cases outcome <;>
    by_cases hp : s.currentPage = 1 <;>
    simp [fetchAndSetProducts, hfc, hp]

/-- Helper: `fetchAndSetProducts` records the filters it fetched with. -/
theorem fetchAndSetProducts_prevFilters (cur : FetchInput)
    (outcome : Except Unit (ProductsApiResponse × List Category))
    (s : CtrlState) :
    (fetchAndSetProducts cur outcome s).prevFilters = cur := by
  cases hfc : filtersChangedB s.prevFilters cur <;> cases outcome <;>
    by_cases hp : s.currentPage = 1 <;>
    simp [fetchAndSetProducts, hfc, hp]

/-- C1: on every invocation of the product list fetch, if the debounced
search or the sort key or direction differ from the values recorded at the
previous fetch, page 1 is requested and the stored current page ends at 1;
if none differ, the stored current page is requested and left unchanged
(and the filters used are recorded for the next fetch). -/
theorem fetchAndSetProducts_page_reset (cur : FetchInput)
    (outcome : Except Unit (ProductsApiResponse × List Category))
    (s : CtrlState) :
    (fetchAndSetProducts cur outcome s).requests = s.requests ++
      [{ page := if cur = s.prevFilters then s.currentPage else 1,
         limit := PRODUCTS_PER_PAGE, search := cur.search,
         sortKey := cur.sortKey, sortDir := cur.sortDir }] ∧
    (fetchAndSetProducts cur outcome s).currentPage
      = (if cur = s.prevFilters then s.currentPage else 1) ∧
    (fetchAndSetProducts cur outcome s).prevFilters = cur := by
  have hreq := fetchAndSetProducts_requests cur outcome s
  have hpage := fetchAndSetProducts_currentPage cur outcome s
  by_cases h : cur = s.prevFilters
  · have hfc : filtersChangedB s.prevFilters cur = false :=
      (filtersChangedB_eq_false_iff s.prevFilters cur).2 h
    rw [hfc] at hreq hpage
    simp only [Bool.false_eq_true, if_false] at hreq hpage
    refine ⟨?_, ?_, fetchAndSetProducts_prevFilters cur outcome s⟩
    · rw [if_pos h]; exact hreq
    · rw [if_pos h]; exact hpage
  · have hfc : filtersChangedB s.prevFilters cur = true :=
      (filtersChangedB_iff s.prevFilters cur).2 h
    rw [hfc] at hreq hpage
    simp only [if_true] at hreq hpage
    refine ⟨?_, ?_, fetchAndSetProducts_prevFilters cur outcome s⟩
    · rw [if_neg h]; exact hreq
    · rw [if_neg h]; exact hpage

/-- C7: when the joint products/categories fetch fails, the controller shows
the toast `Failed to fetch products`, sets the error message, and clears the
loading flag; exactly one request was issued (no retry), and on success the
loading flag is cleared as well. -/
theorem fetchAndSetProducts_failure_handling (cur : FetchInput) (s : CtrlState) :
    (fetchAndSetProducts cur (Except.error ()) s).toasts
      = s.toasts ++ ["Failed to fetch products"] ∧
    (fetchAndSetProducts cur (Except.error ()) s).error
      = some "Failed to fetch products. Please try again later." ∧
    (fetchAndSetProducts cur (Except.error ()) s).isLoading = false ∧
    (fetchAndSetProducts cur (Except.error ()) s).requests.length
      = s.requests.length + 1 ∧
    ∀ d, (fetchAndSetProducts cur (Except.ok d) s).isLoading = false ∧
         (fetchAndSetProducts cur (Except.ok d) s).requests.length
           = s.requests.length + 1 := by
  refine ⟨?_, ?_, ?_, ?_, ?_⟩
  · cases hfc : filtersChangedB s.prevFilters cur <;>
      by_cases hp : s.currentPage = 1 <;> simp [fetchAndSetProducts, hfc, hp]
  · cases hfc : filtersChangedB s.prevFilters cur <;>
      by_cases hp : s.currentPage = 1 <;> simp [fetchAndSetProducts, hfc, hp]
  · cases hfc : filtersChangedB s.prevFilters cur <;>
      by_cases hp : s.currentPage = 1 <;> simp [fetchAndSetProducts, hfc, hp]
  · rw [fetchAndSetProducts_requests]; simp
  · intro d
    refine ⟨?_, ?_⟩
    · cases hfc : filtersChangedB s.prevFilters cur <;>
        by_cases hp : s.currentPage = 1 <;> simp [fetchAndSetProducts, hfc, hp]
    · rw [fetchAndSetProducts_requests]; simp

/-- Helper: with the empty dependency array, a state update re-renders the
component but never re-runs the fetch effect. -/
theorem applyEvent_preserves (outcome : Except Unit (ProductsApiResponse × List Category))
    (e : TableEvent) (m : MountedTable) (h : m.lastDeps = []) :
    (applyEvent outcome e m).st.requests = m.st.requests ∧
      (applyEvent outcome e m).lastDeps = [] := by
  cases e <;> simp [applyEvent, rerenderProductTable, fetchEffectDeps, h]

/-- Helper: `applyEvent_preserves` extended to event sequences. -/
theorem applyEvents_preserves (outcome : Except Unit (ProductsApiResponse × List Category))
    (evs : List TableEvent) :
    ∀ m : MountedTable, m.lastDeps = [] →
      (applyEvents outcome evs m).st.requests = m.st.requests ∧
        (applyEvents outcome evs m).lastDeps = [] := by
  induction evs with
  | nil => exact fun m h => ⟨rfl, h⟩
  | cons e t ih =>
      intro m h
      have he := applyEvent_preserves outcome e m h
      have ht := ih (applyEvent outcome e m) he.2
      have hfold : applyEvents outcome (e :: t) m
          = applyEvents outcome t (applyEvent outcome e m) := rfl
      rw [hfold]
      exact ⟨ht.1.trans he.1, ht.2⟩

/-- C2 (refuted by the code): the fetch effect of `ProductTable` is declared
with an empty dependency array, so after the single mount fetch no change to
the current page, the sort config or the debounced search ever issues
another fetch: after any sequence of such state updates the request log
still holds exactly the one mount request. -/
theorem productTable_no_refetch_on_change
    (outcome : Except Unit (ProductsApiResponse × List Category))
    (evs : List TableEvent) (cur0 : FetchInput) (st0 : CtrlState) :
    (applyEvents outcome evs (mountProductTable cur0 outcome st0)).st.requests.length
      = st0.requests.length + 1 := by
  have h := applyEvents_preserves outcome evs (mountProductTable cur0 outcome st0) rfl
  rw [h.1]
  show (fetchAndSetProducts cur0 outcome st0).requests.length = _
  rw [fetchAndSetProducts_requests]
  simp

/-- C9: for every accepted `getProducts` payload, each returned product has
`imageUrls` equal to the raw `images` (or `[]` when absent), `isFeatured`
defaulting to `false`, `sold` defaulting to `0`, and exactly the raw
specification entries whose key and value are both strings (none at all
when the raw field is not an array); `totalCount` is the payload's when
that is a number and the number of returned products otherwise. -/
theorem getProducts_normalisation (data : ProductsPayload) :
    List.Forall₂ (fun (p : RawProduct) (q : MappedProduct) =>
        q.imageUrls = p.images.getD [] ∧
        q.isFeatured = p.isFeatured.getD false ∧
        q.sold = p.sold.getD 0 ∧
        q.specifications = (match p.specifications with
          | some l => l.filter (fun sp => sp.truthy && sp.key.isString && sp.value.isString)
          | none => []))
      (rawProductsOf data) (getProducts data).products ∧
    (getProducts data).totalCount = (match data with
      | ProductsPayload.obj _ (some n) => n
      | _ => ((getProducts data).products.length : Int)) := by
  constructor
  · show List.Forall₂ _ (rawProductsOf data) ((rawProductsOf data).map mapRawProduct)
    induction rawProductsOf data with
    | nil => exact List.Forall₂.nil
    | cons p t ih => exact List.Forall₂.cons ⟨rfl, rfl, rfl, rfl⟩ ih
  · cases data with
    | arr ps => rfl
    | obj ps tc => cases tc <;> rfl

/-- Helper: a rational is a non-negative integer iff its denominator is 1
and it is non-negative. -/
theorem rat_den_one_nonneg_iff (q : ℚ) :
    (q.den = 1 ∧ 0 ≤ q) ↔ ∃ k : ℕ, q = (k : ℚ) := by
  constructor
  · rintro ⟨hd, h0⟩
    refine ⟨q.num.toNat, ?_⟩
    have hnum : (q.num : ℚ) = q := (Rat.den_eq_one_iff q).1 hd
    have h0n : 0 ≤ q.num := Rat.num_nonneg.2 h0
    have : ((q.num.toNat : ℤ) : ℚ) = (q.num : ℚ) := by
      exact_mod_cast congrArg (fun z : ℤ => (z : ℚ)) (Int.toNat_of_nonneg h0n)
    rw [← hnum]
    exact_mod_cast this.symm
  · rintro ⟨k, rfl⟩
    exact ⟨Rat.den_natCast k, by positivity⟩

/-- Helper: the price field's error is absent iff the price string is
non-empty and parses to a non-negative number. -/
theorem validate_price_none_iff (num : String → Option ℚ) (fd : ProductFormData) :
    (validate num fd).price = none ↔
      (fd.price ≠ "" ∧ ∃ q, num fd.price = some q ∧ 0 ≤ q) := by
  cases hq : num fd.price with
  | none => simp [validate, hq]
  | some q =>
      simp only [validate, hq, Option.getD_some]
      by_cases he : fd.price = ""
      · simp [he]
      · by_cases h0 : q < 0
        · have hn : ¬ (0 ≤ q) := not_le.2 h0
          simp [he, h0, hn]
        · have h0' : 0 ≤ q := not_lt.1 h0
          simp [he, h0, h0']

/-- Helper: the stock field's error is absent iff the stock string is
non-empty and parses to a non-negative integer. -/
theorem validate_stock_none_iff (num : String → Option ℚ) (fd : ProductFormData) :
    (validate num fd).stock = none ↔
      (fd.stock ≠ "" ∧ ∃ q, num fd.stock = some q ∧ ∃ k : ℕ, q = (k : ℚ)) := by
  cases hq : num fd.stock with
  | none => simp [validate, hq]
  | some q =>
      simp only [validate, hq, Option.getD_some]
      constructor
      · intro h
        rw [ite_eq_right_iff] at h
        by_cases hc : fd.stock = "" ∨ some q = none ∨ ¬ q.den = 1 ∨ q < 0
        · exact absurd (h hc) (by simp)
        · push_neg at hc
          exact ⟨hc.1, q, rfl, (rat_den_one_nonneg_iff q).1 ⟨hc.2.2.1, hc.2.2.2⟩⟩
      · rintro ⟨he, q', hq', k, rfl⟩
        have hqq : q = (k : ℚ) := by simpa using hq'
        subst hqq
        have h1 : ((k : ℚ)).den = 1 := Rat.den_natCast k
        have h2 : ¬ ((k : ℚ) < 0) := not_lt.2 (by positivity)
        simp [he, h1, h2]

set_option maxHeartbeats 1000000 in
/-- C10: the product form validation succeeds iff the trimmed name is
non-empty, a category is selected, the price string is non-empty and parses
to a number >= 0, the stock string is non-empty and parses to a non-negative
integer, at least one specification is present, and the trimmed description
and sub-heading are non-empty; an error message is recorded for exactly the
violated fields (never for `imageUrls`), and submission proceeds iff
validation succeeded. -/
theorem productForm_validate_iff (num : String → Option ℚ) (fd : ProductFormData) :
    (validateOk num fd = true ↔
      (fd.name.trim ≠ "" ∧ fd.category ≠ "" ∧
       fd.price ≠ "" ∧ (∃ q, num fd.price = some q ∧ 0 ≤ q) ∧
       fd.stock ≠ "" ∧ (∃ q, num fd.stock = some q ∧ ∃ k : ℕ, q = (k : ℚ)) ∧
       fd.specifications ≠ [] ∧
       fd.description.trim ≠ "" ∧ fd.subHeading.trim ≠ "")) ∧
    ((validate num fd).name.isSome ↔ fd.name.trim = "") ∧
    ((validate num fd).category.isSome ↔ fd.category = "") ∧
    ((validate num fd).price.isSome ↔
      ¬ (fd.price ≠ "" ∧ ∃ q, num fd.price = some q ∧ 0 ≤ q)) ∧
    ((validate num fd).stock.isSome ↔
      ¬ (fd.stock ≠ "" ∧ ∃ q, num fd.stock = some q ∧ ∃ k : ℕ, q = (k : ℚ))) ∧
    ((validate num fd).specifications.isSome ↔ fd.specifications = []) ∧
    ((validate num fd).description.isSome ↔ fd.description.trim = "") ∧
    ((validate num fd).subHeading.isSome ↔ fd.subHeading.trim = "") ∧
    ((validate num fd).imageUrls = none) ∧
    (∀ pid, (handleSubmit num pid fd).isSome = true ↔ validateOk num fd = true) := by
  have hname : ((validate num fd).name = none) ↔ fd.name.trim ≠ "" := by
    simp [validate]
  have hcat : ((validate num fd).category = none) ↔ fd.category ≠ "" := by
    simp [validate]
  have hspec : ((validate num fd).specifications = none) ↔ fd.specifications ≠ [] := by
    simp [validate, List.length_eq_zero]
  have hdesc : ((validate num fd).description = none) ↔ fd.description.trim ≠ "" := by
    simp [validate]
  have hsub : ((validate num fd).subHeading = none) ↔ fd.subHeading.trim ≠ "" := by
    simp [validate]
  have hprice := validate_price_none_iff num fd
  have hstock := validate_stock_none_iff num fd
  have himg : (validate num fd).imageUrls = none := rfl
  have hOk : validateOk num fd = true ↔
      ((validate num fd).name = none ∧ (validate num fd).category = none ∧
       (validate num fd).price = none ∧ (validate num fd).stock = none ∧
       (validate num fd).specifications = none ∧
       (validate num fd).description = none ∧
       (validate num fd).subHeading = none) := by
    simp [validateOk, Bool.and_eq_true, Option.isNone_iff_eq_none, himg, and_assoc]
  refine ⟨?_, ?_, ?_, ?_, ?_, ?_, ?_, ?_, himg, ?_⟩
  · rw [hOk, hname, hcat, hprice, hstock, hspec, hdesc, hsub]
    simp only [ne_eq, and_assoc]
  · simp only [Option.isSome_iff_ne_none, ne_eq, hname, not_not]
  · simp only [Option.isSome_iff_ne_none, ne_eq, hcat, not_not]
  · simp only [Option.isSome_iff_ne_none, ne_eq, hprice, not_not]
  · simp only [Option.isSome_iff_ne_none, ne_eq, hstock, not_not]
  · simp only [Option.isSome_iff_ne_none, ne_eq, hspec, not_not]
  · simp only [Option.isSome_iff_ne_none, ne_eq, hdesc, not_not]
  · simp only [Option.isSome_iff_ne_none, ne_eq, hsub, not_not]
  · intro pid
    unfold handleSubmit
    cases hok : validateOk num fd <;> simp [hok]

end Kidilan
